import Mathlib

/-!
Verification development for the marketplace repository's data and access
model: the SQL schema migrations (tables, CHECK constraints, row-level
security policies, stored procedures) and the client-side data layer
(supabase wrapper functions and the in-memory order context).

Shallow embedding conventions:
- uuid columns become `Nat` identifiers (the stored procedures only compare
  them with equality and `<`, which any linear order supports);
- `decimal(10,2)` money columns and coordinates become `Int` (fixed-point
  scaled values; the code never divides them except for the reported
  `distance_km = meters / 1000`, a monotone rescaling that cannot change
  any ordering or comparison the claims speak about, so distances are kept
  in meters);
- `timestamptz` columns become `Nat` tick counts;
- nullable columns become `Option _`;
- a SQL statement that can be rejected (CHECK constraint violation) returns
  `Option` of the new table, `none` meaning the statement failed and the
  table is unchanged; client functions that `throw` return `Except String`;
- row generation that the platform performs (uuid defaults, `now()`) is
  passed in as explicit fresh-value arguments;
- `ST_Distance` on geography points is a platform primitive, so it is a
  function parameter `dist`; `ST_DWithin p q r` is `dist p q ≤ r` per its
  PostGIS meaning on geography values.
-/

namespace Marketplace

/-- uuid identifier of a user profile row. -/
abbrev UserId := Nat

/-- uuid identifier of a product row. -/
abbrev ProductId := Nat

/-- uuid identifier of a category row. -/
abbrev CategoryId := Nat

/-- uuid identifier of an order row. -/
abbrev OrderId := Nat

/-- uuid identifier of a conversation row. -/
abbrev ConvId := Nat

/-- timestamptz value as a tick count. -/
abbrev Timestamp := Nat

/-- decimal(10,2) monetary value, fixed-point scaled to an integer. -/
abbrev Money := Int

/-- GEOGRAPHY(POINT, 4326) value: `ST_MakePoint(lon, lat)` becomes the pair
`(lon, lat)` of scaled coordinates. -/
abbrev GeoPoint := Int × Int

/-- product_status enum from the initial migration. -/
inductive ProductStatus
  | active
  | sold
  | inactive
deriving DecidableEq, Repr

/-- order_status enum from the initial migration. -/
inductive OrderStatus
  | pending
  | confirmed
  | shipped
  | delivered
  | cancelled
  | returned
deriving DecidableEq, Repr

/-- user_profiles row, with the location columns added by the
location/messaging migration (role, phone, avatar and timestamp columns are
carried as-is by every operation the claims mention and are omitted). -/
structure UserProfileRow where
  id : UserId
  full_name : String
  city : Option String
  state : Option String
  pincode : Option String
  latitude : Option Int
  longitude : Option Int
  location_point : Option GeoPoint
deriving DecidableEq, Repr

/-- categories row (description/icon/special-flag columns omitted: no claim
reads them). -/
structure CategoryRow where
  id : CategoryId
  name : String
deriving DecidableEq, Repr

/-- products row with the location columns added by the later migration.
condition is carried as its literal enum text. -/
structure ProductRow where
  id : ProductId
  seller_id : UserId
  title : String
  description : String
  price : Money
  category_id : CategoryId
  condition : String
  city : Option String
  state : Option String
  pincode : Option String
  latitude : Option Int
  longitude : Option Int
  location_point : Option GeoPoint
  image_urls : List String
  status : ProductStatus
  views : Int
  created_at : Timestamp
  updated_at : Timestamp
deriving DecidableEq, Repr

/-- wishlists row: UNIQUE(user_id, product_id). -/
structure WishlistRow where
  id : Nat
  user_id : UserId
  product_id : ProductId
  created_at : Timestamp
deriving DecidableEq, Repr

/-- conversations row: UNIQUE(user1_id, user2_id, product_id); the two
timestamp columns are defaulted by the platform and read by no claim. -/
structure ConversationRow where
  id : ConvId
  user1_id : UserId
  user2_id : UserId
  product_id : Option ProductId
deriving DecidableEq, Repr

/-- messages row. -/
structure MessageRow where
  id : Nat
  conversation_id : ConvId
  sender_id : UserId
  receiver_id : UserId
  product_id : Option ProductId
  message_text : String
  is_read : Bool
  created_at : Timestamp
deriving DecidableEq, Repr

/-- orders row. -/
structure OrderRow where
  id : OrderId
  buyer_id : UserId
  seller_id : UserId
  total_amount : Money
  status : OrderStatus
  delivery_address : String
  payment_method : String
deriving DecidableEq, Repr

/-- order_items row. -/
structure OrderItemRow where
  id : Nat
  order_id : OrderId
  product_id : ProductId
  quantity : Int
  unit_price : Money
  total_price : Money
deriving DecidableEq, Repr

/-- CHECK (price > 0) on products. -/
def productCheck (p : ProductRow) : Bool :=
  decide (0 < p.price)

/-- CHECK (total_amount > 0) on orders. -/
def orderCheck (o : OrderRow) : Bool :=
  decide (0 < o.total_amount)

/-- CHECK (quantity > 0), CHECK (unit_price > 0), CHECK (total_price > 0) on
order_items. -/
def orderItemCheck (i : OrderItemRow) : Bool :=
  decide (0 < i.quantity) && decide (0 < i.unit_price) && decide (0 < i.total_price)

/-- INSERT of one row into a table guarded by a CHECK constraint: the
statement fails (`none`) when the new row violates the constraint. -/
def insertRow {ρ : Type} (check : ρ → Bool) (r : ρ) (tbl : List ρ) : Option (List ρ) :=
  if check r then some (r :: tbl) else none

/-- UPDATE of the rows selected by `sel`, each rewritten by `f`: the
statement fails (`none`) when any updated row would violate the CHECK
constraint, and then no row changes. -/
def updateRows {ρ : Type} (check : ρ → Bool) (sel : ρ → Bool) (f : ρ → ρ)
    (tbl : List ρ) : Option (List ρ) :=
  if tbl.all (fun r => !sel r || check (f r)) then
    some (tbl.map (fun r => if sel r then f r else r))
  else none

/-- table state after a fallible statement: a rejected statement leaves the
table as it was. -/
def execOp {ρ : Type} (op : Option (List ρ)) (tbl : List ρ) : List ρ :=
  op.getD tbl

/-- membership of the (user, product) pair in the wishlists table. -/
def wlMem (u : UserId) (p : ProductId) (tbl : List WishlistRow) : Bool :=
  tbl.any (fun w => w.user_id == u && w.product_id == p)

/-- toggle_wishlist(product_uuid) from the silver_unit migration: raises when
unauthenticated; otherwise deletes the caller's (user, product) row if one
exists (returning false) and inserts one if absent (returning true).
`newId`/`now` stand for the platform's uuid/now() defaults of the inserted
row. -/
def toggle_wishlist (auth_uid : Option UserId) (product_uuid : ProductId)
    (newId : Nat) (now : Timestamp) (wishlists : List WishlistRow) :
    Except String (Bool × List WishlistRow) :=
  match auth_uid with
  | none => Except.error "User not authenticated"
  | some user_uuid =>
    if wlMem user_uuid product_uuid wishlists then
      Except.ok (false,
        wishlists.filter (fun w => !(w.user_id == user_uuid && w.product_id == product_uuid)))
    else
      Except.ok (true, ⟨newId, user_uuid, product_uuid, now⟩ :: wishlists)

/-- conversations table state: its rows plus the platform's next fresh uuid. -/
structure ConvDB where
  rows : List ConversationRow
  nextId : ConvId
deriving DecidableEq, Repr

/-- WHERE clause of get_or_create_conversation's lookup as the author
intended it: the ordered pair matches and the product scope matches (a null
product parameter matches any thread of the pair; a non-null one must equal
the row's product). -/
def convMatches (ordered_user1 ordered_user2 : UserId)
    (product_id : Option ProductId) (c : ConversationRow) : Bool :=
  c.user1_id == ordered_user1 && c.user2_id == ordered_user2 &&
  (product_id.isNone || c.product_id == product_id)

/-- names in scope as PL/pgSQL variables inside get_or_create_conversation:
its three parameters and its three DECLAREd locals. -/
def get_or_create_conversation_vars : List String :=
  ["user1_id", "user2_id", "product_id",
   "conversation_id", "ordered_user1", "ordered_user2"]

/-- columns of the conversations table. -/
def conversations_columns : List String :=
  ["id", "user1_id", "user2_id", "product_id", "last_message_at", "created_at"]

/-- unqualified names the lookup SELECT's WHERE clause references (the
qualified conversations.product_id and get_or_create_conversation.product_id
references resolve and are not listed). -/
def convLookupUnqualifiedRefs : List String :=
  ["user1_id", "user2_id", "product_id", "ordered_user1", "ordered_user2"]

/-- get_or_create_conversation(user1_id, user2_id, product_id): orders the
two user ids, then runs its lookup SELECT. That SELECT references
user1_id, user2_id and product_id unqualified while function variables of
the same names are in scope; under PL/pgSQL's default name resolution
(variable_conflict = error, SQLSTATE 42702) a reference that could be
either a column or a variable raises, so every call errors before any row
is read or written, and the lookup and insert in the else branch are never
reached. -/
def get_or_create_conversation (user1_id user2_id : UserId)
    (product_id : Option ProductId) (db : ConvDB) :
    Except String (ConvId × ConvDB) :=
  let ordered_user1 := if user1_id < user2_id then user1_id else user2_id
  let ordered_user2 := if user1_id < user2_id then user2_id else user1_id
  if convLookupUnqualifiedRefs.any (fun n =>
      get_or_create_conversation_vars.contains n &&
      conversations_columns.contains n) then
    Except.error "42702: column reference user1_id is ambiguous"
  else
    match db.rows.find? (convMatches ordered_user1 ordered_user2 product_id) with
    | some c => Except.ok (c.id, db)
    | none =>
      Except.ok (db.nextId,
        { rows := ⟨db.nextId, ordered_user1, ordered_user2, product_id⟩ :: db.rows,
          nextId := db.nextId + 1 })

/-- data the nearby-product / product-listing queries range over:
the three joined tables. -/
structure ListingsDB where
  products : List ProductRow
  user_profiles : List UserProfileRow
  categories : List CategoryRow
deriving DecidableEq, Repr

/-- result row shape of get_nearby_products. distance_m carries the
`ST_Distance` value in meters (the SQL reports distance_km = distance_m /
1000, a monotone rescaling); seller_rating is the hard-coded 4.5, scaled. -/
structure NearbyRow where
  id : ProductId
  title : String
  description : String
  price : Money
  category_id : CategoryId
  condition : String
  city : Option String
  state : Option String
  pincode : Option String
  image_urls : List String
  status : ProductStatus
  views : Int
  created_at : Timestamp
  updated_at : Timestamp
  seller_id : UserId
  seller_name : String
  seller_rating : Int
  category_name : String
  distance_m : Option Int
deriving DecidableEq, Repr

/-- one output row of get_nearby_products: product columns plus the joined
seller name and category name. -/
def mkNearbyRow (p : ProductRow) (u : UserProfileRow) (c : CategoryRow)
    (d : Option Int) : NearbyRow :=
  { id := p.id, title := p.title, description := p.description,
    price := p.price, category_id := p.category_id, condition := p.condition,
    city := p.city, state := p.state, pincode := p.pincode,
    image_urls := p.image_urls, status := p.status, views := p.views,
    created_at := p.created_at, updated_at := p.updated_at,
    seller_id := p.seller_id, seller_name := u.full_name, seller_rating := 45,
    category_name := c.name, distance_m := d }

/-- inner JOIN of a product with its seller profile and category row (primary
keys, so the first match is the match). -/
def joinSellerCategory (db : ListingsDB) (p : ProductRow) :
    Option (UserProfileRow × CategoryRow) :=
  match db.user_profiles.find? (fun u => u.id == p.seller_id),
        db.categories.find? (fun c => c.id == p.category_id) with
  | some u, some c => some (u, c)
  | _, _ => none

/-- ORDER BY p.created_at DESC. -/
def byRecency (a b : NearbyRow) : Prop :=
  b.created_at ≤ a.created_at

instance : DecidableRel byRecency :=
  fun a b => inferInstanceAs (Decidable (b.created_at ≤ a.created_at))

instance : IsTotal NearbyRow byRecency := by
  constructor
  intro a b
  unfold byRecency
  exact Nat.le_total b.created_at a.created_at

instance : IsTrans NearbyRow byRecency := by
  constructor
  intro a b c hab hbc
  unfold byRecency at *
  exact Nat.le_trans hbc hab

/-- sort key of the located branch: the computed distance (0 never occurs;
rows of that branch always carry `some`). -/
def distKey (r : NearbyRow) : Int :=
  r.distance_m.getD 0

/-- ORDER BY distance_km ASC, p.created_at DESC. -/
def byDistRecency (a b : NearbyRow) : Prop :=
  distKey a < distKey b ∨ (distKey a = distKey b ∧ b.created_at ≤ a.created_at)

instance : DecidableRel byDistRecency :=
  fun a b => inferInstanceAs
    (Decidable (distKey a < distKey b ∨ (distKey a = distKey b ∧ b.created_at ≤ a.created_at)))

instance : IsTotal NearbyRow byDistRecency := by
  constructor
  intro a b
  unfold byDistRecency
  rcases lt_trichotomy (distKey a) (distKey b) with h | h | h
  · exact Or.inl (Or.inl h)
  · rcases Nat.le_total b.created_at a.created_at with h2 | h2
    · exact Or.inl (Or.inr ⟨h, h2⟩)
    · exact Or.inr (Or.inr ⟨h.symm, h2⟩)
  · exact Or.inr (Or.inl h)

instance : IsTrans NearbyRow byDistRecency := by
  constructor
  intro a b c hab hbc
  unfold byDistRecency at *
  rcases hab with h1 | ⟨h1, h1'⟩ <;> rcases hbc with h2 | ⟨h2, h2'⟩
  · exact Or.inl (lt_trans h1 h2)
  · exact Or.inl (h2 ▸ h1)
  · exact Or.inl (h1 ▸ h2)
  · exact Or.inr ⟨h1.trans h2, Nat.le_trans h2' h1'⟩

/-- candidate row of the no-coordinates branch of get_nearby_products:
joined, WHERE p.status = 'active', NULL distance. -/
def nearbyRowNoLoc (db : ListingsDB) (p : ProductRow) : Option NearbyRow :=
  (joinSellerCategory db p).bind (fun uc =>
    if p.status == ProductStatus.active then
      some (mkNearbyRow p uc.1 uc.2 none)
    else none)

/-- candidate row of the located branch of get_nearby_products: joined,
WHERE p.status = 'active' AND p.location_point IS NOT NULL AND
ST_DWithin(p.location_point, user_point, radius_km * 1000), with the
computed ST_Distance value. -/
def nearbyRowWithLoc (dist : GeoPoint → GeoPoint → Int) (db : ListingsDB)
    (user_lat user_lon radius_km : Int) (p : ProductRow) : Option NearbyRow :=
  (joinSellerCategory db p).bind (fun uc =>
    match p.location_point with
    | some pt =>
      if p.status == ProductStatus.active &&
          decide (dist pt (user_lon, user_lat) ≤ radius_km * 1000) then
        some (mkNearbyRow p uc.1 uc.2 (some (dist pt (user_lon, user_lat))))
      else none
    | none => none)

/-- get_nearby_products(user_lat, user_lon, radius_km, limit_count): with
either coordinate NULL, the active products ordered by recency; with both
present, the active located products within the radius ordered by distance
then recency; both limited to limit_count rows. `dist` is the platform's
ST_Distance on geography values. -/
def get_nearby_products (dist : GeoPoint → GeoPoint → Int) (db : ListingsDB)
    (user_lat user_lon : Option Int) (radius_km : Int) (limit_count : Nat) :
    List NearbyRow :=
  match user_lat, user_lon with
  | some lat, some lon =>
    ((db.products.filterMap (nearbyRowWithLoc dist db lat lon radius_km)).insertionSort
      byDistRecency).take limit_count
  | _, _ =>
    ((db.products.filterMap (nearbyRowNoLoc db)).insertionSort byRecency).take limit_count

/-- row-level policy of both product mutation policies ("Sellers can update
own products", "Sellers can delete own products", and the later "Sellers can
manage own products"): USING (auth.uid() = seller_id). -/
def productOwnerPolicy (auth_uid : UserId) (p : ProductRow) : Bool :=
  auth_uid == p.seller_id

/-- UPDATE on products as the platform evaluates it for `auth_uid`: the
update touches the rows matching the statement's WHERE clause `sel` that
also pass the row-level policy; every other row stays. -/
def rlsUpdateProducts (auth_uid : UserId) (sel : ProductRow → Bool)
    (f : ProductRow → ProductRow) (tbl : List ProductRow) : List ProductRow :=
  tbl.map (fun p => if sel p && productOwnerPolicy auth_uid p then f p else p)

/-- DELETE on products as the platform evaluates it for `auth_uid`: only the
rows matching the WHERE clause that also pass the row-level policy go. -/
def rlsDeleteProducts (auth_uid : UserId) (sel : ProductRow → Bool)
    (tbl : List ProductRow) : List ProductRow :=
  tbl.filter (fun p => !(sel p && productOwnerPolicy auth_uid p))

/-- condition of sync_product_location's IF: one of the five location
columns of the profile IS DISTINCT FROM its old value. -/
def locationChanged (old new : UserProfileRow) : Bool :=
  old.city != new.city || old.state != new.state ||
  old.pincode != new.pincode || old.latitude != new.latitude ||
  old.longitude != new.longitude

/-- sync_product_location trigger body (AFTER UPDATE on user_profiles): when
a location column changed, copy the profile's new location columns onto the
rows of products WHERE seller_id = NEW.id AND status = 'active', stamping
updated_at; otherwise touch nothing. -/
def sync_product_location (old new : UserProfileRow) (now : Timestamp)
    (products : List ProductRow) : List ProductRow :=
  if locationChanged old new then
    products.map (fun p =>
      if p.seller_id == new.id && p.status == ProductStatus.active then
        { p with city := new.city, state := new.state, pincode := new.pincode,
                 latitude := new.latitude, longitude := new.longitude,
                 location_point := new.location_point, updated_at := now }
      else p)
  else products

/-- ORDER BY created_at ascending on messages. -/
def byCreatedAsc (a b : MessageRow) : Prop :=
  a.created_at ≤ b.created_at

instance : DecidableRel byCreatedAsc :=
  fun a b => inferInstanceAs (Decidable (a.created_at ≤ b.created_at))

instance : IsTotal MessageRow byCreatedAsc := by
  constructor
  intro a b
  unfold byCreatedAsc
  exact Nat.le_total a.created_at b.created_at

instance : IsTrans MessageRow byCreatedAsc := by
  constructor
  intro a b c hab hbc
  unfold byCreatedAsc at *
  exact Nat.le_trans hab hbc

/-- order and order_items table state the order-creation client writes. -/
structure OrdersDB where
  orders : List OrderRow
  order_items : List OrderItemRow
deriving DecidableEq, Repr

/-- orderInput argument of the supabase-layer createOrder. -/
structure OrderInput where
  seller_id : UserId
  total_amount : Money
  delivery_address : String
  payment_method : String
deriving DecidableEq, Repr

/-- one element of the items argument of the supabase-layer createOrder. -/
structure OrderItemInput where
  product_id : ProductId
  quantity : Int
  unit_price : Money
  total_price : Money
deriving DecidableEq, Repr

/-- items.map(item =&gt; ({...item, order_id})) with the platform's generated
row ids counted up from `base`. -/
def mkOrderItems (oid : OrderId) (base : Nat) :
    List OrderItemInput → List OrderItemRow
  | [] => []
  | it :: rest =>
    { id := base, order_id := oid, product_id := it.product_id,
      quantity := it.quantity, unit_price := it.unit_price,
      total_price := it.total_price } :: mkOrderItems oid (base + 1) rest

/-- sum of total_price over the order_items rows of one order. -/
def orderItemsTotal (oid : OrderId) (db : OrdersDB) : Money :=
  ((db.order_items.filter (fun i => i.order_id == oid)).map
    (fun i => i.total_price)).sum

/-- sum of total_price over the item inputs of a createOrder call. -/
def inputItemsTotal (items : List OrderItemInput) : Money :=
  (items.map (fun i => i.total_price)).sum

namespace Client

/-- order row the supabase-layer createOrder inserts: buyer_id filled in,
the rest taken verbatim from orderInput; status defaults to pending. -/
def mkOrderRow (uid : UserId) (orderInput : OrderInput)
    (newOrderId : OrderId) : OrderRow :=
  { id := newOrderId, buyer_id := uid, seller_id := orderInput.seller_id,
    total_amount := orderInput.total_amount, status := OrderStatus.pending,
    delivery_address := orderInput.delivery_address,
    payment_method := orderInput.payment_method }

/-- createOrder from the supabase client layer: requires an authenticated
user, inserts the order row, then inserts the item rows tagged with the new
order id. Each insert passes through the table's CHECK constraints;
`newOrderId` / `baseItemId` stand for the platform's generated uuids. -/
def createOrder (auth_uid : Option UserId) (orderInput : OrderInput)
    (items : List OrderItemInput) (newOrderId : OrderId) (baseItemId : Nat)
    (db : OrdersDB) : Except String (OrderRow × OrdersDB) :=
  match auth_uid with
  | none => Except.error "User not authenticated"
  | some uid =>
    match insertRow orderCheck (mkOrderRow uid orderInput newOrderId) db.orders with
    | none => Except.error "order insert rejected"
    | some orders' =>
      let irows := mkOrderItems newOrderId baseItemId items
      if irows.all orderItemCheck then
        Except.ok (mkOrderRow uid orderInput newOrderId,
          { orders := orders', order_items := irows ++ db.order_items })
      else Except.error "order items insert rejected"

/-- getMessages(otherUserId, productId?) from the supabase client layer:
selects the messages exchanged between the session user and the other user
in either direction, optionally narrowed to one product, ordered by
created_at ascending. -/
def getMessages (auth_uid other : UserId) (product_id : Option ProductId)
    (messages : List MessageRow) : List MessageRow :=
  let base : List MessageRow := messages.filter (fun m =>
    (m.sender_id == auth_uid && m.receiver_id == other) ||
    (m.sender_id == other && m.receiver_id == auth_uid))
  let narrowed : List MessageRow :=
    match product_id with
    | some pid => base.filter (fun m => m.product_id == some pid)
    | none => base
  narrowed.insertionSort byCreatedAsc

end Client

namespace Messaging

/-- getMessages(conversationId) from the location/messaging client layer:
selects the messages of one conversation row, ordered by created_at
ascending. -/
def getMessages (conversationId : ConvId) (messages : List MessageRow) :
    List MessageRow :=
  (messages.filter (fun m => m.conversation_id == conversationId)).insertionSort
    byCreatedAsc

end Messaging

namespace Ctx

/-- order item of the in-memory OrderContext (ProductContext.tsx). -/
structure OrderItem where
  id : Nat
  title : String
  price : Money
  quantity : Int
deriving DecidableEq, Repr

/-- status values of the in-memory order. -/
inductive CtxOrderStatus
  | ordered
  | shipped
  | delivered
  | returned
deriving DecidableEq, Repr

/-- order of the in-memory OrderContext. -/
structure Order where
  id : Nat
  items : List OrderItem
  totalAmount : Money
  status : CtxOrderStatus
  deliveryAddress : String
  paymentMethod : String
deriving DecidableEq, Repr

/-- total price of one line item: its price times its quantity (the term the
order total's reduce accumulates). -/
def itemTotal (i : OrderItem) : Money :=
  i.price * i.quantity

/-- sum of the line-item totals of a createOrder call. -/
def itemsTotal (items : List OrderItem) : Money :=
  (items.map itemTotal).sum

/-- OrderProvider.createOrder: builds the order with
totalAmount = items.reduce((total, item) =&gt; total + item.price *
item.quantity, 0) and puts it in front of the list; `newId` stands for
Date.now().toString(). Returns the new order's id. -/
def createOrder (newId : Nat) (items : List OrderItem)
    (deliveryAddress paymentMethod : String) (orders : List Order) :
    Nat × List Order :=
  let newOrder : Order :=
    { id := newId, items := items,
      totalAmount := items.foldl (fun total item => total + item.price * item.quantity) 0,
      status := CtxOrderStatus.ordered, deliveryAddress := deliveryAddress,
      paymentMethod := paymentMethod }
  (newOrder.id, newOrder :: orders)

end Ctx

/-- declared parameter names of get_nearby_products, from its CREATE
FUNCTION signature. -/
def get_nearby_products_params : List String :=
  ["user_lat", "user_lon", "radius_km", "limit_count"]

/-- named-argument procedure call as the platform dispatches it: a call
resolves only when every supplied argument name is a declared parameter of
the procedure (the rest take their defaults); otherwise the platform reports
that no such function exists and the call returns an error. -/
def rpcCall {α : Type} (declared : List String) (argNames : List String)
    (result : α) : Except String α :=
  if argNames.all (fun a => declared.contains a) then Except.ok result
  else Except.error "Could not find the function in the schema cache"

/-- truthiness of an optional string in the client's filter guards: present
and non-empty. -/
def strTruthy : Option String → Bool
  | some s => s != ""
  | none => false

/-- truthiness of an optional numeric filter value: present and non-zero. -/
def numTruthy : Option Money → Bool
  | some v => v != 0
  | none => false

/-- character-list version of startsWith, for the substring test below. -/
def charsLead : List Char → List Char → Bool
  | [], _ => true
  | _ :: _, [] => false
  | a :: as, b :: bs => a == b && charsLead as bs

/-- substring containment (JavaScript's String.includes). -/
def strHasSub (s sub : String) : Bool :=
  (List.range (s.toList.length + 1)).any
    (fun i => charsLead sub.toList (s.toList.drop i))

/-- userLocation filter argument of the client getProducts. -/
structure UserLocation where
  city : Option String
  state : Option String
deriving DecidableEq, Repr

/-- filters argument of the client getProducts. -/
structure GetProductsFilters where
  category : Option String
  condition : Option String
  minPrice : Option Money
  maxPrice : Option Money
  city : Option String
  state : Option String
  search : Option String
  userLocation : Option UserLocation
deriving DecidableEq, Repr

/-- client-side filter chain getProducts applies to rows returned by the
nearby-products call: category by joined name, condition, price bounds
(skipped for a zero bound by JavaScript truthiness), lowercase substring
search over title and description. -/
def applyClientFilters (filters : GetProductsFilters) (rows : List NearbyRow) :
    List NearbyRow :=
  let d1 :=
    match filters.category with
    | some c => if c != "" && c != "All" then rows.filter (fun p => p.category_name == c) else rows
    | none => rows
  let d2 :=
    match filters.condition with
    | some c => if c != "" && c != "All" then d1.filter (fun p => p.condition == c) else d1
    | none => d1
  let d3 :=
    match filters.minPrice with
    | some v => if v != 0 then d2.filter (fun p => decide (v ≤ p.price)) else d2
    | none => d2
  let d4 :=
    match filters.maxPrice with
    | some v => if v != 0 then d3.filter (fun p => decide (p.price ≤ v)) else d3
    | none => d3
  match filters.search with
  | some s =>
    if s != "" then
      d4.filter (fun p =>
        strHasSub p.title.toLower s.toLower || strHasSub p.description.toLower s.toLower)
    else d4
  | none => d4

/-- fallback table query of the client getProducts: active products with
seller and category embedded, newest first, narrowed by the optional
category / condition / price / city / state / search filters. -/
def fallbackProductsQuery (filters : GetProductsFilters) (db : ListingsDB) :
    List NearbyRow :=
  let base := (db.products.filterMap (nearbyRowNoLoc db)).insertionSort byRecency
  let d1 :=
    match filters.category with
    | some c =>
      if c != "" && c != "All" then
        match db.categories.find? (fun k => k.name == c) with
        | some k => base.filter (fun p => p.category_id == k.id)
        | none => base
      else base
    | none => base
  let d2 :=
    match filters.condition with
    | some c => if c != "" && c != "All" then d1.filter (fun p => p.condition == c) else d1
    | none => d1
  let d3 :=
    match filters.minPrice with
    | some v => if v != 0 then d2.filter (fun p => decide (v ≤ p.price)) else d2
    | none => d2
  let d4 :=
    match filters.maxPrice with
    | some v => if v != 0 then d3.filter (fun p => decide (p.price ≤ v)) else d3
    | none => d3
  let d5 :=
    match filters.city with
    | some c =>
      if c != "" then
        d4.filter (fun p =>
          match p.city with
          | some pc => strHasSub pc.toLower c.toLower
          | none => false)
      else d4
    | none => d4
  let d6 :=
    match filters.state with
    | some c =>
      if c != "" then
        d5.filter (fun p =>
          match p.state with
          | some ps => strHasSub ps.toLower c.toLower
          | none => false)
      else d5
    | none => d5
  match filters.search with
  | some s =>
    if s != "" then
      d6.filter (fun p =>
        strHasSub p.title.toLower s.toLower || strHasSub p.description.toLower s.toLower)
    else d6
  | none => d6

namespace Client

/-- getProducts from the supabase client layer: when the userLocation filter
has a truthy city and state it invokes the nearby-products procedure with
the named arguments user_city and user_state (then filters client-side);
otherwise it runs the fallback table query. `rpcRows` stands for whatever
row set the platform would hand back if the named call resolved. -/
def getProducts (filters : GetProductsFilters) (db : ListingsDB)
    (rpcRows : List NearbyRow) : Except String (List NearbyRow) :=
  if strTruthy ((filters.userLocation).bind (fun l => l.city)) &&
      strTruthy ((filters.userLocation).bind (fun l => l.state)) then
    match rpcCall get_nearby_products_params ["user_city", "user_state"] rpcRows with
    | Except.error e => Except.error e
    | Except.ok rows => Except.ok (applyClientFilters filters rows)
  else
    Except.ok (fallbackProductsQuery filters db)

end Client

/-! Concrete sample rows used by the closed witness and counterexample
theorems. -/

/-- sample profile before the update (no location yet). -/
def profileOldW : UserProfileRow :=
  ⟨1, "Sam", none, none, none, none, none, none⟩

/-- sample profile after the update (city, coordinates set). -/
def profileNewW : UserProfileRow :=
  ⟨1, "Sam", some "Pune", some "MH", some "411001", some 185, some 738, some (738, 185)⟩

/-- sample active product of seller 1. -/
def productW : ProductRow :=
  ⟨3, 1, "Desk", "wooden desk", 4500, 20, "good", none, none, none, none, none,
   none, [], ProductStatus.active, 2, 10, 10⟩

/-- sample sold product of seller 1. -/
def productSoldW : ProductRow :=
  ⟨4, 1, "Lamp", "desk lamp", 900, 20, "fair", none, none, none, none, none,
   none, [], ProductStatus.sold, 0, 11, 11⟩

/-- sample active product of another seller. -/
def productOtherW : ProductRow :=
  ⟨5, 2, "Bike", "city bike", 8000, 20, "good", none, none, none, none, none,
   none, [], ProductStatus.active, 1, 12, 12⟩

/-- sample message in conversation 10 between users 1 and 2, about product 5. -/
def msgOneW : MessageRow :=
  ⟨100, 10, 1, 2, some 5, "hi", false, 1⟩

/-- sample message in conversation 11 between the same users 1 and 2, about
product 6. -/
def msgTwoW : MessageRow :=
  ⟨101, 11, 1, 2, some 6, "also hi", false, 2⟩

/-- sample zero-priced product row (violates CHECK (price > 0)). -/
def productBadW : ProductRow :=
  ⟨6, 1, "Zero", "zero-priced row", 0, 20, "good", none, none, none, none,
   none, none, [], ProductStatus.active, 0, 13, 13⟩

/-- sample zero-total order row (violates CHECK (total_amount > 0)). -/
def orderBadW : OrderRow :=
  ⟨30, 1, 2, 0, OrderStatus.pending, "addr", "card"⟩

/-- sample order row passing its CHECK. -/
def orderGoodW : OrderRow :=
  ⟨31, 1, 2, 5000, OrderStatus.pending, "addr", "card"⟩

/-- sample zero-quantity order item row (violates CHECK (quantity > 0)). -/
def orderItemBadW : OrderItemRow :=
  ⟨40, 30, 3, 0, 100, 100⟩

/-- sample order item row passing its CHECKs. -/
def orderItemGoodW : OrderItemRow :=
  ⟨41, 31, 3, 2, 2500, 5000⟩

/-- sample UPDATE statement selecting every product row. -/
def selAllP : ProductRow → Bool := fun _ => true

/-- sample UPDATE assignment zeroing a product's price. -/
def zeroPrice : ProductRow → ProductRow := fun q => { q with price := 0 }

/-- sample UPDATE statement selecting every order row. -/
def selAllO : OrderRow → Bool := fun _ => true

/-- sample UPDATE assignment zeroing an order's total. -/
def zeroTotal : OrderRow → OrderRow := fun q => { q with total_amount := 0 }

/-- sample UPDATE statement selecting every order item row. -/
def selAllI : OrderItemRow → Bool := fun _ => true

/-- sample UPDATE assignment zeroing an order item's quantity. -/
def zeroQty : OrderItemRow → OrderItemRow := fun q => { q with quantity := 0 }

/-- sample userLocation filter value with a truthy city and state. -/
def locW : UserLocation :=
  ⟨some "Pune", some "MH"⟩

/-- sample getProducts filters carrying only the userLocation. -/
def filtersW : GetProductsFilters :=
  ⟨none, none, none, none, none, none, none, some locW⟩

/-! Helper lemmas shared by the claim theorems. -/

/-- membership survives sorting and truncation backwards: an output row of
an ORDER BY / LIMIT pipeline is a row of its input. -/
theorem mem_of_mem_sortTake {α : Type} {r : α → α → Prop} [DecidableRel r]
    {x : α} {l : List α} {n : Nat}
    (h : x ∈ (l.insertionSort r).take n) : x ∈ l :=
  (List.mem_insertionSort r).mp (List.take_subset n _ h)

/-- an ORDER BY / LIMIT pipeline's output is sorted by its ordering. -/
theorem sorted_sortTake {α : Type} (r : α → α → Prop) [DecidableRel r]
    [IsTotal α r] [IsTrans α r] (l : List α) (n : Nat) :
    ((l.insertionSort r).take n).Sorted r :=
  List.Pairwise.sublist (List.take_sublist n _) (List.sorted_insertionSort r l)

/-- a deleted wishlist pair is no longer a member. -/
theorem wlMem_filter_self (u : UserId) (p : ProductId) (tbl : List WishlistRow) :
    wlMem u p (tbl.filter (fun w => !(w.user_id == u && w.product_id == p))) = false := by
  rw [Bool.eq_false_iff]
  intro hmem
  rcases List.any_eq_true.mp hmem with ⟨w, hw, hpred⟩
  rcases List.mem_filter.mp hw with ⟨_, hkeep⟩
  rw [hpred] at hkeep
  simp at hkeep

/-- a freshly inserted wishlist pair is a member. -/
theorem wlMem_cons_self (u : UserId) (p : ProductId) (i : Nat) (t : Timestamp)
    (tbl : List WishlistRow) :
    wlMem u p (⟨i, u, p, t⟩ :: tbl) = true := by
  apply List.any_eq_true.mpr
  exact ⟨⟨i, u, p, t⟩, List.mem_cons_self _ _, by simp⟩

/-! Claim theorems. -/

/-- C2: toggle_wishlist deletes the caller's (user, product) wishlist pair
when it exists and inserts it when absent, returns the resulting membership
state (true when added, false when removed), keeps every other row, and two
consecutive toggles restore the pair's original membership state. -/
theorem toggle_wishlist_spec (u : UserId) (p : ProductId) (i₁ t₁ i₂ t₂ : Nat)
    (db : List WishlistRow) :
    ∃ b₁ db₁ b₂ db₂,
      toggle_wishlist (some u) p i₁ t₁ db = Except.ok (b₁, db₁) ∧
      toggle_wishlist (some u) p i₂ t₂ db₁ = Except.ok (b₂, db₂) ∧
      b₁ = !(wlMem u p db) ∧
      wlMem u p db₁ = b₁ ∧
      (∀ w ∈ db, ¬(w.user_id = u ∧ w.product_id = p) → w ∈ db₁) ∧
      wlMem u p db₂ = wlMem u p db := by
  cases h : wlMem u p db with
  | true =>
    refine ⟨false, db.filter (fun w => !(w.user_id == u && w.product_id == p)),
      true, ⟨i₂, u, p, t₂⟩ :: db.filter (fun w => !(w.user_id == u && w.product_id == p)),
      ?_, ?_, ?_, ?_, ?_, ?_⟩
    · simp [toggle_wishlist, h]
    · simp only [toggle_wishlist]
      rw [wlMem_filter_self]
      simp
    · simp
    · exact wlMem_filter_self u p db
    · intro w hw hne
      apply List.mem_filter.mpr
      refine ⟨hw, ?_⟩
      simp only [Bool.not_eq_eq_eq_not, Bool.not_true, Bool.and_eq_false_imp]
      intro h1
      rw [beq_iff_eq] at h1
      rw [Bool.eq_false_iff]
      intro h2
      rw [beq_iff_eq] at h2
      exact hne ⟨h1, h2⟩
    · exact wlMem_cons_self u p i₂ t₂ _
  | false =>
    refine ⟨true, ⟨i₁, u, p, t₁⟩ :: db, false,
      (⟨i₁, u, p, t₁⟩ :: db).filter (fun w => !(w.user_id == u && w.product_id == p)),
      ?_, ?_, ?_, ?_, ?_, ?_⟩
    · simp [toggle_wishlist, h]
    · simp only [toggle_wishlist]
      rw [wlMem_cons_self]
      simp
    · simp
    · exact wlMem_cons_self u p i₁ t₁ db
    · intro w hw _
      exact List.mem_cons_of_mem _ hw
    · exact wlMem_filter_self u p _

/-- C3: no call to get_or_create_conversation resolves a conversation
thread for either argument order: the lookup SELECT's unqualified user1_id,
user2_id and product_id collide with the function's identically named
parameters, so PL/pgSQL's default name resolution raises the
ambiguous-column-reference error (SQLSTATE 42702) on every call before any
lookup or insertion happens. -/
theorem get_or_create_conversation_raises (a b : UserId)
    (prod : Option ProductId) (db : ConvDB) :
    get_or_create_conversation a b prod db =
      Except.error "42702: column reference user1_id is ambiguous" := rfl

/-- C7: no conversation row is ever created through
get_or_create_conversation: the ambiguous-column-reference error fires
before its lookup and insert, so no call yields a conversation id or a new
table state. -/
theorem get_or_create_conversation_creates_no_row (a b : UserId)
    (prod : Option ProductId) (db : ConvDB) :
    (get_or_create_conversation a b prod db).toOption = none := rfl

/-- C6: a product UPDATE or DELETE issued by an authenticated identity may
touch a row only when the identity equals the row's seller_id: every row an
update changes comes from an owner's row, a non-owner's row keeps its
position and value under every update, survives every delete, and a row a
delete removes was the caller's own. -/
theorem products_owner_only_mutation (uid : UserId) (sel : ProductRow → Bool)
    (f : ProductRow → ProductRow) (tbl : List ProductRow) :
    (∀ q ∈ rlsUpdateProducts uid sel f tbl,
        q ∈ tbl ∨ ∃ p ∈ tbl, p.seller_id = uid ∧ q = f p) ∧
    (∀ i : Nat, ∀ p : ProductRow, tbl[i]? = some p → p.seller_id ≠ uid →
        (rlsUpdateProducts uid sel f tbl)[i]? = some p) ∧
    (∀ p ∈ tbl, p.seller_id ≠ uid → p ∈ rlsDeleteProducts uid sel tbl) ∧
    (∀ p ∈ tbl, p ∉ rlsDeleteProducts uid sel tbl → p.seller_id = uid) := by
  refine ⟨?_, ?_, ?_, ?_⟩
  · intro q hq
    rcases List.mem_map.mp hq with ⟨p, hp, hqe⟩
    by_cases hcond : (sel p && productOwnerPolicy uid p) = true
    · rw [if_pos hcond] at hqe
      have hcond' := hcond
      rw [Bool.and_eq_true] at hcond'
      rcases hcond' with ⟨_, hpol⟩
      rw [productOwnerPolicy, beq_iff_eq] at hpol
      exact Or.inr ⟨p, hp, hpol.symm, hqe.symm⟩
    · rw [if_neg hcond] at hqe
      exact Or.inl (hqe ▸ hp)
  · intro i p hip hne
    have hpol : productOwnerPolicy uid p = false := by
      rw [productOwnerPolicy, beq_eq_false_iff_ne]
      exact fun he => hne he.symm
    simp only [rlsUpdateProducts, List.getElem?_map, hip, Option.map_some']
    simp [hpol]
  · intro p hp hne
    have hpol : productOwnerPolicy uid p = false := by
      rw [productOwnerPolicy, beq_eq_false_iff_ne]
      exact fun he => hne he.symm
    apply List.mem_filter.mpr
    exact ⟨hp, by simp [hpol]⟩
  · intro p hp hmem
    by_contra hne
    apply hmem
    have hpol : productOwnerPolicy uid p = false := by
      rw [productOwnerPolicy, beq_eq_false_iff_ne]
      exact fun he => hne he.symm
    apply List.mem_filter.mpr
    exact ⟨hp, by simp [hpol]⟩

/-- C10: when a profile update changes any of the five location columns,
the sync_product_location trigger rewrites exactly the rows whose seller_id
is the updated user and whose status is active, copying the new location
columns onto them (stamping updated_at); every other row — the seller's
non-active products and every other seller's products — keeps its position
and its full value. -/
theorem sync_product_location_spec (old new : UserProfileRow)
    (now : Timestamp) (products : List ProductRow)
    (hch : locationChanged old new = true) (i : Nat) (p : ProductRow)
    (hip : products[i]? = some p) :
    (p.seller_id = new.id ∧ p.status = ProductStatus.active →
      (sync_product_location old new now products)[i]? =
        some { p with city := new.city, state := new.state,
                      pincode := new.pincode, latitude := new.latitude,
                      longitude := new.longitude,
                      location_point := new.location_point, updated_at := now }) ∧
    (¬(p.seller_id = new.id ∧ p.status = ProductStatus.active) →
      (sync_product_location old new now products)[i]? = some p) := by
  constructor
  · rintro ⟨h1, h2⟩
    simp only [sync_product_location, hch, if_true, List.getElem?_map, hip,
      Option.map_some']
    simp [h1, h2]
  · intro hno
    have hcond : (p.seller_id == new.id && p.status == ProductStatus.active) = false := by
      by_contra hcb
      rw [Bool.not_eq_false, Bool.and_eq_true] at hcb
      exact hno ⟨beq_iff_eq.mp hcb.1, beq_iff_eq.mp hcb.2⟩
    simp only [sync_product_location, hch, if_true, List.getElem?_map, hip,
      Option.map_some']
    rw [hcond]
    simp

/-- C10 witness: the trigger theorem applied to a profile update that sets
a city and coordinates, over a three-row products table, at the seller's
active row. -/
theorem sync_product_location_spec_witness :
    locationChanged profileOldW profileNewW = true ∧
    ([productW, productSoldW, productOtherW] : List ProductRow)[0]? = some productW ∧
    ((productW.seller_id = profileNewW.id ∧ productW.status = ProductStatus.active →
      (sync_product_location profileOldW profileNewW 20
          [productW, productSoldW, productOtherW])[0]? =
        some { productW with city := profileNewW.city, state := profileNewW.state,
                             pincode := profileNewW.pincode,
                             latitude := profileNewW.latitude,
                             longitude := profileNewW.longitude,
                             location_point := profileNewW.location_point,
                             updated_at := 20 }) ∧
     (¬(productW.seller_id = profileNewW.id ∧ productW.status = ProductStatus.active) →
      (sync_product_location profileOldW profileNewW 20
          [productW, productSoldW, productOtherW])[0]? = some productW)) :=
  ⟨by decide, by decide,
   sync_product_location_spec profileOldW profileNewW 20
     [productW, productSoldW, productOtherW] (by decide) 0 productW (by decide)⟩

/-- an UPDATE one of whose selected rows would violate its CHECK constraint
is rejected whole. -/
theorem updateRows_rejects {ρ : Type} (check sel : ρ → Bool) (f : ρ → ρ)
    (tbl : List ρ) (r : ρ) (hr : r ∈ tbl) (hsel : sel r = true)
    (hbad : check (f r) = false) : updateRows check sel f tbl = none := by
  have hall : tbl.all (fun x => !sel x || check (f x)) = false := by
    cases h : tbl.all (fun x => !sel x || check (f x)) with
    | false => rfl
    | true =>
      have hx := List.all_eq_true.mp h r hr
      rw [hsel, hbad] at hx
      simp at hx
  simp [updateRows, hall]

/-- C5: an INSERT or UPDATE that gives a product price, an order total, an
order-item quantity, an order-item unit price or an order-item total price
a non-positive value is rejected by the declared CHECK constraints, and the
rejected statement leaves its table unchanged. -/
theorem checks_reject_nonpositive
    (p : ProductRow) (o : OrderRow) (it : OrderItemRow)
    (tp : List ProductRow) (tor : List OrderRow) (ti : List OrderItemRow)
    (selp : ProductRow → Bool) (fp : ProductRow → ProductRow)
    (selo : OrderRow → Bool) (fo : OrderRow → OrderRow)
    (seli : OrderItemRow → Bool) (fit : OrderItemRow → OrderItemRow)
    (hp : p.price ≤ 0) (ho : o.total_amount ≤ 0)
    (hit : it.quantity ≤ 0 ∨ it.unit_price ≤ 0 ∨ it.total_price ≤ 0)
    (hup : ∃ r ∈ tp, selp r = true ∧ (fp r).price ≤ 0)
    (huo : ∃ r ∈ tor, selo r = true ∧ (fo r).total_amount ≤ 0)
    (hui : ∃ r ∈ ti, seli r = true ∧
      ((fit r).quantity ≤ 0 ∨ (fit r).unit_price ≤ 0 ∨ (fit r).total_price ≤ 0)) :
    (insertRow productCheck p tp = none ∧
      execOp (insertRow productCheck p tp) tp = tp) ∧
    (insertRow orderCheck o tor = none ∧
      execOp (insertRow orderCheck o tor) tor = tor) ∧
    (insertRow orderItemCheck it ti = none ∧
      execOp (insertRow orderItemCheck it ti) ti = ti) ∧
    (updateRows productCheck selp fp tp = none ∧
      execOp (updateRows productCheck selp fp tp) tp = tp) ∧
    (updateRows orderCheck selo fo tor = none ∧
      execOp (updateRows orderCheck selo fo tor) tor = tor) ∧
    (updateRows orderItemCheck seli fit ti = none ∧
      execOp (updateRows orderItemCheck seli fit ti) ti = ti) := by
  have hpcf : ∀ q : ProductRow, q.price ≤ 0 → productCheck q = false := by
    intro q hq
    rw [Bool.eq_false_iff]
    intro h
    simp only [productCheck, decide_eq_true_eq] at h
    exact absurd h (not_lt.mpr hq)
  have hocf : ∀ q : OrderRow, q.total_amount ≤ 0 → orderCheck q = false := by
    intro q hq
    rw [Bool.eq_false_iff]
    intro h
    simp only [orderCheck, decide_eq_true_eq] at h
    exact absurd h (not_lt.mpr hq)
  have hicf : ∀ q : OrderItemRow,
      q.quantity ≤ 0 ∨ q.unit_price ≤ 0 ∨ q.total_price ≤ 0 →
      orderItemCheck q = false := by
    intro q hq
    rw [Bool.eq_false_iff]
    intro h
    simp only [orderItemCheck, Bool.and_eq_true, decide_eq_true_eq] at h
    rcases hq with hb | hb | hb
    · exact absurd h.1.1 (not_lt.mpr hb)
    · exact absurd h.1.2 (not_lt.mpr hb)
    · exact absurd h.2 (not_lt.mpr hb)
  have h1 : insertRow productCheck p tp = none := by simp [insertRow, hpcf p hp]
  have h2 : insertRow orderCheck o tor = none := by simp [insertRow, hocf o ho]
  have h3 : insertRow orderItemCheck it ti = none := by simp [insertRow, hicf it hit]
  rcases hup with ⟨rp, hrp, hsp, hbp⟩
  rcases huo with ⟨ro, hro, hso, hbo⟩
  rcases hui with ⟨ri, hri, hsi, hbi⟩
  have h4 : updateRows productCheck selp fp tp = none :=
    updateRows_rejects _ _ _ _ rp hrp hsp (hpcf _ hbp)
  have h5 : updateRows orderCheck selo fo tor = none :=
    updateRows_rejects _ _ _ _ ro hro hso (hocf _ hbo)
  have h6 : updateRows orderItemCheck seli fit ti = none :=
    updateRows_rejects _ _ _ _ ri hri hsi (hicf _ hbi)
  exact ⟨⟨h1, by rw [h1]; rfl⟩, ⟨h2, by rw [h2]; rfl⟩, ⟨h3, by rw [h3]; rfl⟩,
         ⟨h4, by rw [h4]; rfl⟩, ⟨h5, by rw [h5]; rfl⟩, ⟨h6, by rw [h6]; rfl⟩⟩

/-- C5 witness: the rejection theorem applied to concrete zero-valued rows
and concrete zeroing updates over one-row tables. -/
theorem checks_reject_nonpositive_witness :
    (productBadW.price ≤ 0 ∧ orderBadW.total_amount ≤ 0 ∧
      (orderItemBadW.quantity ≤ 0 ∨ orderItemBadW.unit_price ≤ 0 ∨
        orderItemBadW.total_price ≤ 0) ∧
      (∃ r ∈ [productW], selAllP r = true ∧ (zeroPrice r).price ≤ 0) ∧
      (∃ r ∈ [orderGoodW], selAllO r = true ∧ (zeroTotal r).total_amount ≤ 0) ∧
      (∃ r ∈ [orderItemGoodW], selAllI r = true ∧
        ((zeroQty r).quantity ≤ 0 ∨ (zeroQty r).unit_price ≤ 0 ∨
          (zeroQty r).total_price ≤ 0))) ∧
    ((insertRow productCheck productBadW [productW] = none ∧
        execOp (insertRow productCheck productBadW [productW]) [productW] = [productW]) ∧
      (insertRow orderCheck orderBadW [orderGoodW] = none ∧
        execOp (insertRow orderCheck orderBadW [orderGoodW]) [orderGoodW] = [orderGoodW]) ∧
      (insertRow orderItemCheck orderItemBadW [orderItemGoodW] = none ∧
        execOp (insertRow orderItemCheck orderItemBadW [orderItemGoodW]) [orderItemGoodW] =
          [orderItemGoodW]) ∧
      (updateRows productCheck selAllP zeroPrice [productW] = none ∧
        execOp (updateRows productCheck selAllP zeroPrice [productW]) [productW] = [productW]) ∧
      (updateRows orderCheck selAllO zeroTotal [orderGoodW] = none ∧
        execOp (updateRows orderCheck selAllO zeroTotal [orderGoodW]) [orderGoodW] = [orderGoodW]) ∧
      (updateRows orderItemCheck selAllI zeroQty [orderItemGoodW] = none ∧
        execOp (updateRows orderItemCheck selAllI zeroQty [orderItemGoodW]) [orderItemGoodW] =
          [orderItemGoodW])) :=
  ⟨⟨by decide, by decide, by decide, by decide, by decide, by decide⟩,
   checks_reject_nonpositive productBadW orderBadW orderItemBadW
     [productW] [orderGoodW] [orderItemGoodW] selAllP zeroPrice selAllO zeroTotal
     selAllI zeroQty (by decide) (by decide) (by decide) (by decide) (by decide)
     (by decide)⟩

/-- C8: the repository's two message-retrieval implementations diverge: for
the two-message table below and the pair (1, 2), the per-user-pair query
returns both messages while the per-conversation-id query never does, for
any conversation id. -/
theorem getMessages_implementations_diverge :
    ∃ msgs : List MessageRow, ∃ uid other : UserId,
      ∀ cid : ConvId,
        Client.getMessages uid other none msgs ≠ Messaging.getMessages cid msgs := by
  refine ⟨[msgOneW, msgTwoW], 1, 2, ?_⟩
  intro cid heq
  have hL : (Client.getMessages 1 2 none [msgOneW, msgTwoW]).length = 2 := by decide
  rw [heq] at hL
  have hR : (Messaging.getMessages cid [msgOneW, msgTwoW]).length =
      (List.filter (fun m => m.conversation_id == cid) [msgOneW, msgTwoW]).length := by
    simp only [Messaging.getMessages, List.length_insertionSort]
  rw [hR] at hL
  by_cases h1 : (msgOneW.conversation_id == cid) = true
  · by_cases h2 : (msgTwoW.conversation_id == cid) = true
    · have e1 : (10 : ConvId) = cid := beq_iff_eq.mp h1
      have e2 : (11 : ConvId) = cid := beq_iff_eq.mp h2
      exact absurd (e1.trans e2.symm) (by decide)
    · rw [Bool.not_eq_true] at h2
      simp [List.filter_cons, h1, h2] at hL
  · rw [Bool.not_eq_true] at h1
    by_cases h2 : (msgTwoW.conversation_id == cid) = true
    · simp [List.filter_cons, h1, h2] at hL
    · rw [Bool.not_eq_true] at h2
      simp [List.filter_cons, h1, h2] at hL

/-- C9: when the userLocation filter carries a truthy city and state, the
client getProducts invokes get_nearby_products with the named arguments
user_city and user_state, which its declared parameter list does not
contain, so the call resolves to no function and getProducts returns the
platform's error instead of products. -/
theorem getProducts_location_call_errors (filters : GetProductsFilters)
    (db : ListingsDB) (rpcRows : List NearbyRow) (loc : UserLocation)
    (c s : String) (hloc : filters.userLocation = some loc)
    (hc : loc.city = some c) (hs : loc.state = some s)
    (hcne : c ≠ "") (hsne : s ≠ "") :
    Client.getProducts filters db rpcRows =
      Except.error "Could not find the function in the schema cache" := by
  have hct : strTruthy ((filters.userLocation).bind (fun l => l.city)) = true := by
    rw [hloc]
    simp [Option.bind, hc, strTruthy, bne_iff_ne, hcne]
  have hst : strTruthy ((filters.userLocation).bind (fun l => l.state)) = true := by
    rw [hloc]
    simp [Option.bind, hs, strTruthy, bne_iff_ne, hsne]
  have hcond : (["user_city", "user_state"].all
      (fun a => get_nearby_products_params.contains a)) = false := by decide
  have hrpc : rpcCall get_nearby_products_params ["user_city", "user_state"] rpcRows =
      (Except.error "Could not find the function in the schema cache" :
        Except String (List NearbyRow)) := by
    unfold rpcCall
    rw [hcond]
    simp
  simp [Client.getProducts, hct, hst, hrpc]

/-- C9 witness: the error theorem applied to the concrete filter value with
city Pune and state MH over an empty data set. -/
theorem getProducts_location_call_errors_witness :
    (filtersW.userLocation = some locW ∧ locW.city = some "Pune" ∧
      locW.state = some "MH" ∧ "Pune" ≠ "" ∧ "MH" ≠ "") ∧
    Client.getProducts filtersW ⟨[], [], []⟩ [] =
      Except.error "Could not find the function in the schema cache" :=
  ⟨⟨rfl, rfl, rfl, by decide, by decide⟩,
   getProducts_location_call_errors filtersW ⟨[], [], []⟩ [] locW "Pune" "MH"
     rfl rfl rfl (by decide) (by decide)⟩

/-- every order-item row the supabase-layer createOrder builds is tagged
with the new order's id. -/
theorem mkOrderItems_order_id (oid : OrderId) (base : Nat)
    (items : List OrderItemInput) :
    ∀ r ∈ mkOrderItems oid base items, r.order_id = oid := by
  induction items generalizing base with
  | nil =>
    intro r hr
    simp [mkOrderItems] at hr
  | cons it rest ih =>
    intro r hr
    rw [mkOrderItems] at hr
    rcases List.mem_cons.mp hr with rfl | hr
    · rfl
    · exact ih (base + 1) r hr

/-- the built order-item rows carry exactly the inputs' total prices. -/
theorem mkOrderItems_total (oid : OrderId) (base : Nat)
    (items : List OrderItemInput) :
    ((mkOrderItems oid base items).map (fun i => i.total_price)).sum =
      inputItemsTotal items := by
  induction items generalizing base with
  | nil => simp [mkOrderItems, inputItemsTotal]
  | cons it rest ih =>
    rw [mkOrderItems]
    simp only [List.map_cons, List.sum_cons, inputItemsTotal]
    rw [ih (base + 1)]
    simp [inputItemsTotal]

/-- the reduce of the in-memory createOrder accumulates the line-item
totals. -/
theorem foldl_price_quantity (items : List Ctx.OrderItem) (a : Money) :
    items.foldl (fun total item => total + item.price * item.quantity) a =
      a + Ctx.itemsTotal items := by
  induction items generalizing a with
  | nil => simp [Ctx.itemsTotal]
  | cons i rest ih =>
    simp only [List.foldl_cons, Ctx.itemsTotal, List.map_cons, List.sum_cons]
    rw [ih]
    simp only [Ctx.itemsTotal, Ctx.itemTotal]
    ring

/-- C4 counterexample: the supabase-layer createOrder accepts a caller
total of 100 together with a single line item whose total price is 50; the
order it creates has a total different from the sum of its line items'
total prices. -/
theorem createOrder_total_mismatch :
    ∃ orow db', Client.createOrder (some 1) ⟨2, 100, "addr", "card"⟩
        [⟨5, 1, 50, 50⟩] 7 20 ⟨[], []⟩ = Except.ok (orow, db') ∧
      orow.total_amount ≠ orderItemsTotal 7 db' :=
  ⟨_, _, rfl, by decide⟩

/-- C4 amended: the in-memory OrderProvider.createOrder computes the new
order's total as the sum of its line-item totals (price times quantity),
so the equality holds there by construction; the supabase-layer createOrder
stores the caller's total and items verbatim without enforcing it, so an
order it creates satisfies the equality exactly when the caller passes a
total equal to the items' total-price sum (here: given such a caller and a
fresh order id, the stored order's total equals the sum of its stored line
items' total prices). -/
theorem order_totals_amended (newId : Nat) (items : List Ctx.OrderItem)
    (addr pay : String) (orders : List Ctx.Order) (auth_uid : Option UserId)
    (inp : OrderInput) (sitems : List OrderItemInput) (oid : OrderId)
    (base : Nat) (db : OrdersDB) (orow : OrderRow) (db' : OrdersDB)
    (hok : Client.createOrder auth_uid inp sitems oid base db = Except.ok (orow, db'))
    (hsum : inp.total_amount = inputItemsTotal sitems)
    (hfresh : ∀ i ∈ db.order_items, i.order_id ≠ oid) :
    (∃ o : Ctx.Order, (Ctx.createOrder newId items addr pay orders).2 = o :: orders ∧
      o.items = items ∧ o.totalAmount = Ctx.itemsTotal items) ∧
    orow.total_amount = orderItemsTotal oid db' := by
  constructor
  · refine ⟨_, rfl, rfl, ?_⟩
    show items.foldl (fun total item => total + item.price * item.quantity) 0 =
      Ctx.itemsTotal items
    rw [foldl_price_quantity]
    ring
  · cases auth_uid with
    | none => simp [Client.createOrder] at hok
    | some uid =>
      simp only [Client.createOrder] at hok
      cases hI : insertRow orderCheck (Client.mkOrderRow uid inp oid) db.orders with
      | none => rw [hI] at hok; simp at hok
      | some orders' =>
        rw [hI] at hok
        dsimp only at hok
        by_cases hA : ((mkOrderItems oid base sitems).all orderItemCheck) = true
        · rw [if_pos hA] at hok
          rw [Except.ok.injEq, Prod.mk.injEq] at hok
          rcases hok with ⟨horow, hdb⟩
          subst horow
          subst hdb
          show inp.total_amount = _
          rw [hsum]
          unfold orderItemsTotal
          dsimp only
          rw [List.filter_append]
          have hfa : List.filter (fun i => i.order_id == oid)
              (mkOrderItems oid base sitems) = mkOrderItems oid base sitems := by
            apply List.filter_eq_self.mpr
            intro r hr
            rw [beq_iff_eq]
            exact mkOrderItems_order_id oid base sitems r hr
          have hfb : List.filter (fun i => i.order_id == oid) db.order_items = [] := by
            apply List.filter_eq_nil_iff.mpr
            intro r hr
            rw [Bool.not_eq_true, beq_eq_false_iff_ne]
            exact hfresh r hr
          rw [hfa, hfb, List.append_nil, mkOrderItems_total]
        · rw [if_neg hA] at hok
          simp at hok

/-- C4 amended witness: a consistent concrete call (total 100, two items
with total prices 60 and 40) through both creation paths. -/
theorem order_totals_amended_witness :
    (Client.createOrder (some 1) ⟨2, 100, "a", "card"⟩
        [⟨5, 1, 60, 60⟩, ⟨6, 2, 20, 40⟩] 7 20 ⟨[], []⟩ =
      Except.ok (Client.mkOrderRow 1 ⟨2, 100, "a", "card"⟩ 7,
        ⟨[Client.mkOrderRow 1 ⟨2, 100, "a", "card"⟩ 7],
         mkOrderItems 7 20 [⟨5, 1, 60, 60⟩, ⟨6, 2, 20, 40⟩]⟩) ∧
      (100 : Money) = inputItemsTotal [⟨5, 1, 60, 60⟩, ⟨6, 2, 20, 40⟩]) ∧
    ((∃ o : Ctx.Order, (Ctx.createOrder 9 [⟨1, "T", 25, 4⟩] "a" "card" []).2 = o :: [] ∧
        o.items = [⟨1, "T", 25, 4⟩] ∧ o.totalAmount = Ctx.itemsTotal [⟨1, "T", 25, 4⟩]) ∧
      (Client.mkOrderRow 1 ⟨2, 100, "a", "card"⟩ 7).total_amount =
        orderItemsTotal 7 ⟨[Client.mkOrderRow 1 ⟨2, 100, "a", "card"⟩ 7],
          mkOrderItems 7 20 [⟨5, 1, 60, 60⟩, ⟨6, 2, 20, 40⟩]⟩) :=
  ⟨⟨rfl, by decide⟩,
   order_totals_amended 9 [⟨1, "T", 25, 4⟩] "a" "card" [] (some 1)
     ⟨2, 100, "a", "card"⟩ [⟨5, 1, 60, 60⟩, ⟨6, 2, 20, 40⟩] 7 20 ⟨[], []⟩
     (Client.mkOrderRow 1 ⟨2, 100, "a", "card"⟩ 7)
     ⟨[Client.mkOrderRow 1 ⟨2, 100, "a", "card"⟩ 7],
      mkOrderItems 7 20 [⟨5, 1, 60, 60⟩, ⟨6, 2, 20, 40⟩]⟩
     rfl (by decide) (by decide)⟩

/-- C1: with both coordinates NULL, get_nearby_products returns only active
products, ordered by creation time descending, limited to the requested
count; with both coordinates present, it returns only active products with
a non-null location whose distance from the given point is within the
radius (each row carrying that computed distance), ordered by distance
ascending then creation time descending, limited to the requested count. -/
theorem get_nearby_products_spec (dist : GeoPoint → GeoPoint → Int)
    (db : ListingsDB) (radius_km : Int) (limit_count : Nat) :
    ((∀ x ∈ get_nearby_products dist db none none radius_km limit_count,
        x.status = ProductStatus.active) ∧
      (get_nearby_products dist db none none radius_km limit_count).Sorted byRecency ∧
      (get_nearby_products dist db none none radius_km limit_count).length ≤ limit_count) ∧
    (∀ lat lon : Int,
      (∀ x ∈ get_nearby_products dist db (some lat) (some lon) radius_km limit_count,
          x.status = ProductStatus.active ∧
          ∃ p ∈ db.products, x.id = p.id ∧ x.created_at = p.created_at ∧
            ∃ pt, p.location_point = some pt ∧
              x.distance_m = some (dist pt (lon, lat)) ∧
              dist pt (lon, lat) ≤ radius_km * 1000) ∧
      (get_nearby_products dist db (some lat) (some lon) radius_km limit_count).Sorted
          byDistRecency ∧
      (get_nearby_products dist db (some lat) (some lon) radius_km limit_count).length ≤
          limit_count) := by
  have hdef0 : get_nearby_products dist db none none radius_km limit_count =
      ((db.products.filterMap (nearbyRowNoLoc db)).insertionSort byRecency).take
        limit_count := rfl
  constructor
  · refine ⟨?_, ?_, ?_⟩
    · intro x hx
      rw [hdef0] at hx
      have hx2 : x ∈ db.products.filterMap (nearbyRowNoLoc db) :=
        mem_of_mem_sortTake hx
      rcases List.mem_filterMap.mp hx2 with ⟨p, hp, hfp⟩
      simp only [nearbyRowNoLoc] at hfp
      rcases Option.bind_eq_some.mp hfp with ⟨uc, hj, hcore⟩
      by_cases hst : (p.status == ProductStatus.active) = true
      · rw [if_pos hst] at hcore
        have hxe := (Option.some.inj hcore).symm
        subst hxe
        exact beq_iff_eq.mp hst
      · rw [if_neg hst] at hcore
        exact absurd hcore (by simp)
    · rw [hdef0]
      exact sorted_sortTake byRecency _ _
    · rw [hdef0]
      exact List.length_take_le _ _
  · intro lat lon
    have hdefL : get_nearby_products dist db (some lat) (some lon) radius_km limit_count =
        ((db.products.filterMap (nearbyRowWithLoc dist db lat lon radius_km)).insertionSort
          byDistRecency).take limit_count := rfl
    refine ⟨?_, ?_, ?_⟩
    · intro x hx
      rw [hdefL] at hx
      have hx2 : x ∈ db.products.filterMap (nearbyRowWithLoc dist db lat lon radius_km) :=
        mem_of_mem_sortTake hx
      rcases List.mem_filterMap.mp hx2 with ⟨p, hp, hfp⟩
      simp only [nearbyRowWithLoc] at hfp
      rcases Option.bind_eq_some.mp hfp with ⟨uc, hj, hcore⟩
      cases hpt : p.location_point with
      | none =>
        rw [hpt] at hcore
        simp at hcore
      | some pt =>
        rw [hpt] at hcore
        dsimp only at hcore
        by_cases hc : (p.status == ProductStatus.active &&
            decide (dist pt (lon, lat) ≤ radius_km * 1000)) = true
        · rw [if_pos hc] at hcore
          have hxe := (Option.some.inj hcore).symm
          rw [Bool.and_eq_true] at hc
          rcases hc with ⟨hst, hd⟩
          rw [decide_eq_true_eq] at hd
          subst hxe
          exact ⟨beq_iff_eq.mp hst, p, hp, rfl, rfl, pt, hpt, rfl, hd⟩
        · rw [if_neg hc] at hcore
          exact absurd hcore (by simp)
    · rw [hdefL]
      exact sorted_sortTake byDistRecency _ _
    · rw [hdefL]
      exact List.length_take_le _ _

end Marketplace
